import Mathlib

/-!
Verification development for the Kiyanshi Organics storefront backend
(`backend/app.py`): a shallow embedding of the order-placement transaction,
the order-status update, the metrics aggregator, the authorization gate and
the input validators, with theorems settling the specified properties.

Modelling conventions:
* Python strings are Lean `String`s; absent JSON fields / `None` are `Option`.
* Currency and metric values are exact rationals `ℚ`.  Where the source
  performs Python `float` (IEEE-754 binary64) arithmetic, each operation is
  modelled exactly by round-to-nearest-even at 53 significant bits (`fl64`);
  the inputs exercised stay well inside the normal range, so overflow and
  subnormals do not arise.
* The PostgreSQL tables of `init_db` are lists of row structures; a SQL
  `INSERT`/`UPDATE` inside the per-request connection only becomes visible
  when `conn.commit()` runs, so a handler path that raises (or returns)
  before the commit leaves the database value unchanged (rollback).
* Python truthiness: `None`, `""`, `0` and `[]` are falsy.
-/

namespace Kiyanshi

/-- Round a rational to the nearest integer, ties to even: the rounding used
by IEEE-754 binary64 arithmetic and by Python's built-in `round`. -/
def rintHalfEven (q : ℚ) : ℤ :=
  if q - ⌊q⌋ < 1/2 then ⌊q⌋
  else if 1/2 < q - ⌊q⌋ then ⌊q⌋ + 1
  else if ⌊q⌋ % 2 = 0 then ⌊q⌋ else ⌊q⌋ + 1

/-- Python `round(x, 2)` as used by `get_metrics`: round to two decimal
places, ties to even, modelled on the exact rational value. -/
def pyRound2 (q : ℚ) : ℚ := (rintHalfEven (q * 100) : ℚ) / 100

/-- The `DECIMAL(10, 2)` column cast PostgreSQL applies when a value is
inserted into `orders.total_amount` or `order_items.price` (schema of
`init_db`): round to two decimal places, ties away from zero — for the
nonnegative currency values handled here this is `⌊q·100 + 1/2⌋ / 100`. -/
def pgNumeric2 (q : ℚ) : ℚ := (round (q * 100) : ℤ) / 100

/-- IEEE-754 binary64 rounding of a nonzero rational in the normal range:
keep 53 significant bits, round to nearest, ties to even.  This is the value
Python produces for each float operation (`json.loads` number parsing, `*`,
`+`) on the magnitudes exercised by the backend. -/
def fl64 (q : ℚ) : ℚ :=
  if q = 0 then 0
  else (rintHalfEven (q * 2 ^ (52 - Int.log 2 |q|)) : ℚ) * 2 ^ (-(52 - Int.log 2 |q|))

/-- A JSON value as relevant to the validators: Python `None`, a string, or
an integer (non-string, to exercise the `isinstance` check). -/
inductive PyValue where
  | none
  | str (s : String)
  | int (n : ℤ)
deriving DecidableEq

/-- Python truthiness on `PyValue`. -/
def pyTruthy : PyValue → Bool
  | .none => false
  | .str s => !(s == "")
  | .int n => !(n == 0)

/-- Python `isinstance(v, str)`. -/
def isinstance_str : PyValue → Bool
  | .str _ => true
  | _ => false

/-- Python `s.isdigit()` (false on the empty string), over the ASCII plane
exercised by every phone-number input of the backend. -/
def str_isdigit (s : String) : Bool := !(s == "") && s.data.all Char.isDigit

/-- `validate_mobile` (app.py:191): `mobile and isinstance(mobile, str) and
len(mobile) == 10 and mobile.isdigit()`.  A falsy or non-string value fails
the first two conjuncts, short-circuiting to false. -/
def validate_mobile : PyValue → Bool
  | .str s => !(s == "") && s.length == 10 && str_isdigit s
  | _ => false

/-- The in-memory metrics store: `defaultdict(float)` as an association
list. An absent key reads as 0. -/
def Metrics := List (String × ℚ)

/-- Reading a counter: first matching key, defaulting to 0 (the
`defaultdict(float)` / `.get(name, 0)` behaviour). -/
def mget : Metrics → String → ℚ
  | [], _ => 0
  | (k, x) :: rest, name => if k == name then x else mget rest name

/-- `track_metric` (app.py:59): `metrics[metric_name] += value`, creating the
counter at zero if absent. -/
def track_metric : Metrics → String → ℚ → Metrics
  | [], name, v => [(name, v)]
  | (k, x) :: rest, name, v =>
      if k == name then (k, x + v) :: rest else (k, x) :: track_metric rest name v

/-- `after_request` (app.py:226): on a 5xx response track `errors_5xx`, on a
4xx response track `errors_4xx`, otherwise leave the metrics alone. -/
def after_request (m : Metrics) (code : ℕ) : Metrics :=
  if 500 ≤ code then track_metric m "errors_5xx" 1
  else if 400 ≤ code then track_metric m "errors_4xx" 1
  else m

/-- A row of the `users` table. -/
structure UserRow where
  id : ℕ
  mobile : String
  password : String
deriving DecidableEq

/-- A row of the `addresses` table (fields beyond ownership and the required
`address_line` are not relevant to any claim). -/
structure AddressRow where
  id : ℕ
  user_id : ℕ
  address_line : String
deriving DecidableEq

/-- A row of the `orders` table. -/
structure OrderRow where
  id : ℕ
  user_id : ℕ
  address_id : ℕ
  total_amount : ℚ
  status : String
deriving DecidableEq

/-- A row of the `order_items` table. -/
structure ItemRow where
  order_id : ℕ
  product_name : String
  price : ℚ
  quantity : ℤ
  unit : String
deriving DecidableEq

/-- The persisted state: the four tables of `init_db`. -/
structure DB where
  users : List UserRow
  addresses : List AddressRow
  orders : List OrderRow
  order_items : List ItemRow
deriving DecidableEq

/-- `SELECT id FROM users WHERE mobile=%s` + `fetchone()`. -/
def findUser (db : DB) (mobile : String) : Option UserRow :=
  db.users.find? (fun u => u.mobile == mobile)

/-- The `SERIAL` id assigned to a freshly inserted user row. -/
def nextUserId (db : DB) : ℕ :=
  db.users.foldr (fun u acc => max u.id acc) 0 + 1

/-- The `SERIAL` id assigned to a freshly inserted order row
(`RETURNING id`). -/
def nextOrderId (db : DB) : ℕ :=
  db.orders.foldr (fun o acc => max o.id acc) 0 + 1

/-- Whether an `addresses` row with the given id exists: the referential
check performed by the `address_id REFERENCES addresses(id)` constraint when
an order row is inserted. -/
def addressExists (db : DB) (aid : ℕ) : Bool :=
  db.addresses.any (fun a => a.id == aid)

/-- `generate_password_hash`, modelled as the identity: the hashing scheme
itself is delegated to werkzeug and immaterial to every claim; all that is
used is that `check_password_hash` accepts exactly the stored credential. -/
def generate_password_hash (password : String) : String := password

/-- `check_password_hash(stored, candidate)` under the same modelling. -/
def check_password_hash (stored candidate : String) : Bool := stored == candidate

/-- `auth` (app.py:294): validate, then auto-register an unseen mobile, else
verify the password, tracking `login_successful` / `login_failed` only on
the authenticate path.  Result: (HTTP status, database, metrics). -/
def auth (db : DB) (m : Metrics) (mobile password : Option String) :
    ℕ × DB × Metrics :=
  match mobile, password with
  | some mob, some pw =>
    if mob = "" ∨ pw = "" then (400, db, m)
    else if validate_mobile (.str mob) = false then (400, db, m)
    else if pw.length < 6 then (400, db, m)
    else
      match findUser db mob with
      | Option.none =>
          (201,
           { db with users := db.users ++ [⟨nextUserId db, mob, generate_password_hash pw⟩] },
           m)
      | some u =>
          if check_password_hash u.password pw then
            (200, db, track_metric m "login_successful" 1)
          else
            (401, db, track_metric m "login_failed" 1)
  | _, _ => (400, db, m)

/-- `get_addresses` (app.py:407): reject an invalid mobile with 400 before
the user lookup; a missing user degrades to an empty list with 200. -/
def get_addresses (db : DB) (mobile : String) : ℕ × List AddressRow :=
  if validate_mobile (.str mobile) = false then (400, [])
  else
    match findUser db mobile with
    | Option.none => (200, [])
    | some u => (200, db.addresses.filter (fun a => a.user_id == u.id))

/-- A cart line item as supplied in the JSON body of `POST /api/order`;
`price` is the binary64 value produced by `json.loads` for the price
literal. -/
structure CartItem where
  name : String
  price : ℚ
  quantity : ℤ
  unit : String
deriving DecidableEq

/-- The binary64 value `json.loads` assigns to a decimal number literal with
exact value `q`. -/
def json_number (q : ℚ) : ℚ := fl64 q

/-- `total = sum(item["price"] * item["quantity"] for item in cart)`
(app.py:502): float multiplication and left-to-right float accumulation
starting from the int 0 (adding the first float to 0 is exact). -/
def order_total (cart : List CartItem) : ℚ :=
  cart.foldl (fun acc it => fl64 (acc + fl64 (it.price * (it.quantity : ℚ)))) 0

/-- Modelled from the spec (§4.4 step 3, a computation the source does NOT
perform this way): `total = Σ (item.price × item.quantity)` over the cart in
exact decimal arithmetic, each pair carrying the exact decimal value of the
price literal and the quantity. -/
def spec_decimal_total (cart : List (ℚ × ℤ)) : ℚ :=
  (cart.map (fun pq => pq.1 * (pq.2 : ℚ))).sum

/-- The committed effect of a successful `place_order`: one order row, one
item row per cart entry (all sharing the fresh order id), and the
`orders_placed` / `orders_total_value` metrics. -/
def place_order_commit (db : DB) (m : Metrics) (uid aid : ℕ)
    (items : List CartItem) : ℕ × DB × Metrics :=
  let total := order_total items
  let oid := nextOrderId db
  (201,
   { db with
       orders := db.orders ++ [⟨oid, uid, aid, pgNumeric2 total, "PLACED"⟩],
       order_items := db.order_items ++
         items.map (fun it => ⟨oid, it.name, pgNumeric2 it.price, it.quantity, it.unit⟩) },
   track_metric (track_metric m "orders_placed" 1) "orders_total_value" total)

/-- `place_order` (app.py:480).  `failAt = some k` injects a failure at the
k-th item insert (exercising the §7 partial-failure scenario): the
exception propagates before `conn.commit()`, so the transaction is
discarded and the database is unchanged.  An `address_id` with no matching
`addresses` row makes the order insert itself raise (foreign-key
constraint), likewise before any commit. -/
def place_order (db : DB) (m : Metrics) (mobile : Option String)
    (address_id : Option ℕ) (cart : Option (List CartItem))
    (failAt : Option ℕ) : ℕ × DB × Metrics :=
  match mobile, address_id, cart with
  | some mob, some aid, some items =>
    if mob = "" ∨ aid = 0 ∨ items = [] then (400, db, m)
    else
      match findUser db mob with
      | Option.none => (404, db, m)
      | some u =>
          if addressExists db aid = false then (500, db, m)
          else
            match failAt with
            | some k =>
                if k < items.length then (500, db, m)
                else place_order_commit db m u.id aid items
            | Option.none => place_order_commit db m u.id aid items
  | _, _, _ => (400, db, m)

/-- One entry of the `my_orders` response: order fields joined with the
address line and the item rows of the order. -/
structure OrderView where
  id : ℕ
  total_amount : ℚ
  status : String
  address_line : String
  items : List ItemRow
deriving DecidableEq

/-- `my_orders` (app.py:534): no mobile validation; a missing user returns
an empty list with 200; otherwise the user's orders (most recent id first,
`ORDER BY o.id DESC`), each joined with its address and its items. -/
def my_orders (db : DB) (mobile : String) : ℕ × List OrderView :=
  match findUser db mobile with
  | Option.none => (200, [])
  | some u =>
      let mine := (db.orders.filter (fun o => o.user_id == u.id)).mergeSort
        (fun o₁ o₂ => o₂.id ≤ o₁.id)
      (200,
       mine.filterMap (fun o =>
         (db.addresses.find? (fun a => a.id == o.address_id)).map (fun a =>
           ⟨o.id, fl64 o.total_amount, o.status, a.address_line,
            db.order_items.filter (fun it => it.order_id == o.id)⟩)))

/-- `update_order_status` (app.py:630), after the admin gate: falsy
`order_id`/`status` → 400; `UPDATE orders SET status=%s WHERE id=%s` with
`rowcount == 0` → 404 without commit; otherwise the matched rows' status is
overwritten unconditionally and committed. -/
def update_order_status (db : DB) (order_id : Option ℕ)
    (status : Option String) : ℕ × DB :=
  match order_id, status with
  | some oid, some st =>
    if oid = 0 ∨ st = "" then (400, db)
    else if db.orders.countP (fun o => o.id == oid) = 0 then (404, db)
    else
      let updated := db.orders.map
        (fun o => if o.id == oid then { o with status := st } else o)
      (200, { db with orders := updated })
  | _, _ => (400, db)

/-- A `PUT /api/admin/order/status` request as a whole: the handler followed
by the `after_request` middleware applied to its status code. -/
def update_order_status_request (db : DB) (m : Metrics)
    (order_id : Option ℕ) (status : Option String) : ℕ × DB × Metrics :=
  let r := update_order_status db order_id status
  (r.1, r.2, after_request m r.1)

/-- The `login_success_rate_percent` field of `get_metrics` (app.py:259):
guarded division, rounded to two decimals. -/
def login_success_rate (m : Metrics) : ℚ :=
  let total := mget m "login_successful" + mget m "login_failed"
  if 0 < total then pyRound2 (mget m "login_successful" / total * 100) else 0

/-- The `conversion_rate_percent` field of `get_metrics`: guarded division,
rounded to two decimals. -/
def conversion_rate (m : Metrics) : ℚ :=
  if 0 < mget m "products_viewed" then
    pyRound2 (mget m "orders_placed" / mget m "products_viewed" * 100)
  else 0

/-- Truthiness of a resolved candidate mobile (absent or empty is falsy). -/
def opt_truthy (m : Option String) : Bool :=
  match m with
  | Option.none => false
  | some s => !(s == "")

/-- The candidate-phone resolution of `admin_required` (app.py:195): the JSON
body field, then the path parameter, then the `Mobile` header, each taken
only when the previous one resolved to a falsy value. -/
def resolve_candidate (body path header : Option String) : Option String :=
  let m := body
  let m := if opt_truthy m then m else path
  let m := if opt_truthy m then m else header
  m

/-- The `admin_required` gate around a handler returning `handler` as its
status code: `if mobile != ADMIN_MOBILE: return 403`. -/
def admin_required (adminMobile : String) (body path header : Option String)
    (handler : ℕ) : ℕ :=
  if resolve_candidate body path header ≠ some adminMobile then 403 else handler

/-- The §3 invariant "an Order always has ≥1 OrderItem": every order row has
at least one item row referencing it. -/
def OrdersHaveItems (db : DB) : Prop :=
  ∀ o ∈ db.orders, ∃ it ∈ db.order_items, it.order_id = o.id

/-- The §3 invariant that an order's `address_id` names an existing address
row (the part of the address invariant the schema forces). -/
def OrdersAddressExists (db : DB) : Prop :=
  ∀ o ∈ db.orders, ∃ a ∈ db.addresses, a.id = o.address_id

/-- The full §3 address invariant claimed by the spec: the referenced
address exists and belongs to the order's user. -/
def OrdersAddressSameUser (db : DB) : Prop :=
  ∀ o ∈ db.orders, ∃ a ∈ db.addresses, a.id = o.address_id ∧ a.user_id = o.user_id

/-! ### Helper lemmas: rounding, the binary64 model, and the metrics map -/

theorem rintHalfEven_of_lt {x : ℚ} {n : ℤ} (h1 : (n:ℚ) ≤ x) (h2 : x - n < 1/2) :
    rintHalfEven x = n := by
  have hfl : ⌊x⌋ = n := Int.floor_eq_iff.mpr ⟨by exact_mod_cast h1, by linarith⟩
  unfold rintHalfEven
  rw [hfl, if_pos (by linarith)]

theorem rintHalfEven_of_gt {x : ℚ} {n : ℤ} (h1 : (n:ℚ) ≤ x) (h2 : x < n + 1)
    (h3 : 1/2 < x - n) : rintHalfEven x = n + 1 := by
  have hfl : ⌊x⌋ = n := Int.floor_eq_iff.mpr ⟨by exact_mod_cast h1, by linarith⟩
  unfold rintHalfEven
  rw [hfl, if_neg (by linarith), if_pos (by linarith)]

theorem rintHalfEven_intCast (n : ℤ) : rintHalfEven (n : ℚ) = n := by
  apply rintHalfEven_of_lt le_rfl
  norm_num

theorem rintHalfEven_of_eq {x : ℚ} {n : ℤ} (h : x = n) : rintHalfEven x = n :=
  h ▸ rintHalfEven_intCast n

theorem abs_rintHalfEven_sub_le (q : ℚ) : |(rintHalfEven q : ℚ) - q| ≤ 1/2 := by
  have h1 : (⌊q⌋ : ℚ) ≤ q := Int.floor_le q
  have h2 : q < ⌊q⌋ + 1 := Int.lt_floor_add_one q
  unfold rintHalfEven
  split_ifs with ha hb hc
  · rw [abs_le]; constructor <;> linarith
  · rw [abs_le]; push_cast; constructor <;> linarith
  · rw [abs_le]; constructor <;> linarith [not_lt.mp ha, not_lt.mp hb]
  · rw [abs_le]; push_cast; constructor <;> linarith [not_lt.mp ha, not_lt.mp hb]

theorem abs_pyRound2_sub_le (q : ℚ) : |pyRound2 q - q| ≤ 1/200 := by
  have h := abs_rintHalfEven_sub_le (q * 100)
  unfold pyRound2
  have e : (rintHalfEven (q * 100) : ℚ) / 100 - q
      = ((rintHalfEven (q * 100) : ℚ) - q * 100) / 100 := by ring
  rw [e, abs_div, abs_of_pos (by norm_num : (0:ℚ) < 100),
      div_le_iff₀ (by norm_num : (0:ℚ) < 100)]
  linarith

theorem int_log2_eq {q : ℚ} {e : ℤ} (u : 0 < q) (v : 2^e ≤ q) (w : q < 2^(e+1)) :
    Int.log 2 q = e := by
  have hle : e ≤ Int.log 2 q := (Int.zpow_le_iff_le_log one_lt_two u).mp (by exact_mod_cast v)
  have hlt : Int.log 2 q < e + 1 := (Int.lt_zpow_iff_log_lt one_lt_two u).mp (by exact_mod_cast w)
  omega

theorem fl64_of {q : ℚ} {e : ℤ} (u : 0 < q) (v : 2^e ≤ q) (w : q < 2^(e+1)) :
    fl64 q = (rintHalfEven (q * 2 ^ (52 - e)) : ℚ) * 2 ^ (-(52 - e)) := by
  unfold fl64
  rw [if_neg u.ne', abs_of_pos u, int_log2_eq u v w]

theorem fl64_dyadic {q : ℚ} {e n : ℤ} (u : 0 < q) (v : 2^e ≤ q) (w : q < 2^(e+1))
    (d : q * 2 ^ (52 - e) = (n:ℚ)) : fl64 q = q := by
  rw [fl64_of u v w, rintHalfEven_of_eq d, ← d, mul_assoc,
      ← zpow_add₀ (by norm_num : (2:ℚ) ≠ 0)]
  simp

theorem fl64_eval_11_10 : fl64 (11/10) = 4953959590107546 / 2^52 := by
  rw [fl64_of (e := 0) (by norm_num) (by norm_num) (by norm_num)]
  rw [rintHalfEven_of_gt (n := 4953959590107545) (by norm_num) (by norm_num) (by norm_num)]
  norm_num

theorem fl64_eval_100 : fl64 (100 : ℚ) = 100 :=
  fl64_dyadic (e := 6) (n := 7036874417766400) (by norm_num) (by norm_num)
    (by norm_num) (by norm_num)

theorem mget_track_self (m : Metrics) (name : String) (v : ℚ) :
    mget (track_metric m name v) name = mget m name + v := by
  induction m with
  | nil => simp [track_metric, mget]
  | cons kv rest ih =>
      obtain ⟨k, x⟩ := kv
      by_cases h : k == name
      · simp [track_metric, mget, h]
      · simp only [track_metric, mget, h, Bool.false_eq_true, if_false]
        exact ih

theorem mget_track_other (m : Metrics) (name n : String) (v : ℚ) (h : ¬ n = name) :
    mget (track_metric m name v) n = mget m n := by
  induction m with
  | nil =>
      simp only [track_metric, mget]
      rw [if_neg (by simpa [beq_iff_eq] using fun e => h e.symm)]
  | cons kv rest ih =>
      obtain ⟨k, x⟩ := kv
      by_cases hk : k == name
      · have : ¬ (k == n) = true := by
          simp only [beq_iff_eq] at hk ⊢
          exact fun e => h (e ▸ hk ▸ rfl)
        simp [track_metric, mget, hk, this]
      · by_cases hn : k == n
        · simp [track_metric, mget, hk, hn]
        · simp [track_metric, mget, hk, hn, ih]

theorem fl64_eval_rice_mul :
    fl64 (4953959590107546 / 2^52 * ((3:ℤ):ℚ)) = 7430939385161319 / 2^51 := by
  have h : fl64 (4953959590107546 / 2^52 * ((3:ℤ):ℚ))
      = 4953959590107546 / 2^52 * ((3:ℤ):ℚ) :=
    fl64_dyadic (e := 1) (n := 7430939385161319) (by norm_num) (by norm_num)
      (by norm_num) (by norm_num)
  rw [h]
  norm_num

theorem fl64_eval_rice_add :
    fl64 (0 + 7430939385161319 / 2^51) = 7430939385161319 / 2^51 := by
  have h : fl64 ((0:ℚ) + 7430939385161319 / 2^51)
      = (0:ℚ) + 7430939385161319 / 2^51 :=
    fl64_dyadic (e := 1) (n := 7430939385161319) (by norm_num) (by norm_num)
      (by norm_num) (by norm_num)
  rw [h]
  norm_num

/-- The float total the source computes for the cart
`[{name:"Rice", price:1.1, quantity:3, unit:"kg"}]`. -/
theorem order_total_rice :
    order_total [⟨"Rice", json_number (11/10), 3, "kg"⟩] = 7430939385161319 / 2^51 := by
  unfold order_total json_number
  simp only [List.foldl]
  rw [fl64_eval_11_10, fl64_eval_rice_mul, fl64_eval_rice_add]

/-! ### Claim theorems -/

/-- The `DECIMAL(10, 2)` cast recovers the exact cents from the drifted
float at this magnitude. -/
theorem pgNumeric2_rice : pgNumeric2 (7430939385161319 / 2^51) = 33/10 := by
  unfold pgNumeric2
  have h : round ((7430939385161319 / 2^51 : ℚ) * 100) = 330 := by
    rw [round_eq]
    apply Int.floor_eq_iff.mpr
    constructor <;> norm_num
  rw [h]
  norm_num

/-- Claim C2 (code_bug): `place_order` computes the order total with Python
binary64 float arithmetic, not fixed-point/decimal arithmetic: for the cart
`[{name:"Rice", price:1.1, quantity:3, unit:"kg"}]` the computed total and
the `orders_total_value` metric delta are the float value
`7430939385161319/2^51` (= 3.3000000000000002664…), not the exact decimal
sum `price × quantity = 3.30` the spec requires; only the `DECIMAL(10,2)`
column cast masks the drift in the stored row at this magnitude. -/
theorem C2_float_total_drift :
    order_total [⟨"Rice", json_number (11/10), 3, "kg"⟩] = 7430939385161319 / 2^51 ∧
    spec_decimal_total [(11/10, 3)] = 33/10 ∧
    (7430939385161319 / 2^51 : ℚ) ≠ 33/10 ∧
    (place_order ⟨[⟨1, "1111111111", "pw"⟩], [⟨10, 1, "A street"⟩], [], []⟩ []
      (some "1111111111") (some 10)
      (some [⟨"Rice", json_number (11/10), 3, "kg"⟩]) Option.none).2.1.orders =
      [⟨1, 1, 10, 33/10, "PLACED"⟩] ∧
    mget (place_order ⟨[⟨1, "1111111111", "pw"⟩], [⟨10, 1, "A street"⟩], [], []⟩ []
      (some "1111111111") (some 10)
      (some [⟨"Rice", json_number (11/10), 3, "kg"⟩]) Option.none).2.2
      "orders_total_value" = 7430939385161319 / 2^51 := by
  have key : place_order ⟨[⟨1, "1111111111", "pw"⟩], [⟨10, 1, "A street"⟩], [], []⟩ []
      (some "1111111111") (some 10)
      (some [⟨"Rice", json_number (11/10), 3, "kg"⟩]) Option.none =
      (201,
       ⟨[⟨1, "1111111111", "pw"⟩], [⟨10, 1, "A street"⟩],
        [⟨1, 1, 10, pgNumeric2 (order_total [⟨"Rice", json_number (11/10), 3, "kg"⟩]),
          "PLACED"⟩],
        [⟨1, "Rice", pgNumeric2 (json_number (11/10)), 3, "kg"⟩]⟩,
       [("orders_placed", 1),
        ("orders_total_value", order_total [⟨"Rice", json_number (11/10), 3, "kg"⟩])]) := rfl
  refine ⟨order_total_rice, by norm_num [spec_decimal_total], by norm_num, ?_, ?_⟩
  · rw [key, order_total_rice, pgNumeric2_rice]
  · rw [key]
    simp [mget, order_total_rice]

/-- Every run of `place_order` either leaves the database unchanged (a
validation failure, a missing user, the foreign-key violation, or the
injected item-insert failure — all before `conn.commit()`), or returns the
committed transaction, with a resolved user, a non-empty cart, an existing
address, and no failure hitting the item loop. -/
theorem place_order_shape (db : DB) (m : Metrics) (mob : Option String)
    (aid : Option ℕ) (cart : Option (List CartItem)) (failAt : Option ℕ) :
    (place_order db m mob aid cart failAt).2.1 = db ∨
    ∃ uid a items, aid = some a ∧ cart = some items ∧ items ≠ [] ∧
      addressExists db a = true ∧
      place_order db m mob aid cart failAt = place_order_commit db m uid a items ∧
      ∀ k, failAt = some k → ¬ k < items.length := by
  rcases mob with _ | mob
  · exact Or.inl rfl
  rcases aid with _ | aid
  · exact Or.inl rfl
  rcases cart with _ | items
  · exact Or.inl rfl
  by_cases h400 : mob = "" ∨ aid = 0 ∨ items = []
  · have e : place_order db m (some mob) (some aid) (some items) failAt = (400, db, m) := by
      simp only [place_order, if_pos h400]
    exact Or.inl (by rw [e])
  have hne : items ≠ [] := fun hnil => h400 (Or.inr (Or.inr hnil))
  rcases hfind : findUser db mob with _ | u
  · have e : place_order db m (some mob) (some aid) (some items) failAt = (404, db, m) := by
      simp only [place_order, if_neg h400, hfind]
    exact Or.inl (by rw [e])
  by_cases haddr : addressExists db aid = false
  · have e : place_order db m (some mob) (some aid) (some items) failAt = (500, db, m) := by
      simp only [place_order, if_neg h400, hfind, if_pos haddr]
    exact Or.inl (by rw [e])
  have ha : addressExists db aid = true := by
    cases hb : addressExists db aid
    · exact absurd hb haddr
    · rfl
  rcases failAt with _ | k
  · refine Or.inr ⟨u.id, aid, items, rfl, rfl, hne, ha, ?_, fun k hk => nomatch hk⟩
    simp only [place_order, if_neg h400, hfind, if_neg haddr]
  by_cases hk : k < items.length
  · have e : place_order db m (some mob) (some aid) (some items) (some k) = (500, db, m) := by
      simp only [place_order, if_neg h400, hfind, if_neg haddr, if_pos hk]
    exact Or.inl (by rw [e])
  · refine Or.inr ⟨u.id, aid, items, rfl, rfl, hne, ha, ?_, ?_⟩
    · simp only [place_order, if_neg h400, hfind, if_neg haddr, if_neg hk]
    · intro k' hk'
      injection hk' with e
      rw [← e]
      exact hk

/-- A committed order placement keeps the "every order has an item"
invariant: the fresh order gets one item row per cart entry, and the cart is
non-empty. -/
theorem place_order_commit_hasItems {db : DB} (m : Metrics) (uid aid : ℕ)
    {items : List CartItem} (h : OrdersHaveItems db) (hne : items ≠ []) :
    OrdersHaveItems (place_order_commit db m uid aid items).2.1 := by
  intro o ho
  dsimp only [place_order_commit] at ho ⊢
  rcases List.mem_append.mp ho with hold | hnew
  · obtain ⟨it, hit, heq⟩ := h o hold
    exact ⟨it, List.mem_append_left _ hit, heq⟩
  · rcases items with _ | ⟨i, rest⟩
    · exact absurd rfl hne
    · have ho' : o = ⟨nextOrderId db, uid, aid, pgNumeric2 (order_total (i :: rest)), "PLACED"⟩ := by
        simpa using hnew
      refine ⟨⟨nextOrderId db, i.name, pgNumeric2 i.price, i.quantity, i.unit⟩, ?_, by rw [ho']⟩
      apply List.mem_append_right
      simp

/-- A committed order placement keeps the "every order references an
existing address" invariant, given the foreign-key check succeeded. -/
theorem place_order_commit_addrExists {db : DB} (m : Metrics) (uid aid : ℕ)
    {items : List CartItem} (h : OrdersAddressExists db)
    (ha : addressExists db aid = true) :
    OrdersAddressExists (place_order_commit db m uid aid items).2.1 := by
  intro o ho
  dsimp only [place_order_commit] at ho ⊢
  rcases List.mem_append.mp ho with hold | hnew
  · exact h o hold
  · have ho' : o = ⟨nextOrderId db, uid, aid, pgNumeric2 (order_total items), "PLACED"⟩ := by
      simpa using hnew
    obtain ⟨a, haMem, haId⟩ := List.any_eq_true.mp ha
    refine ⟨a, haMem, ?_⟩
    rw [ho']
    show a.id = aid
    exact beq_iff_eq.mp haId

/-- Claim C1 (confirmed): The order insert and all its item inserts commit as
one transaction: every reachable database keeps the "an Order always has
≥1 OrderItem" invariant across any `place_order` call (the cart is required
non-empty by validation), and when an item insert fails after the order
insert (`failAt` hitting the loop), the whole transaction rolls back and no
order row persists. -/
theorem C1_place_order_atomicity (db : DB) (m : Metrics) (mob : Option String)
    (aid : Option ℕ) (cart : Option (List CartItem)) (failAt : Option ℕ)
    (h : OrdersHaveItems db) :
    OrdersHaveItems (place_order db m mob aid cart failAt).2.1 ∧
    (∀ k items, failAt = some k → cart = some items → k < items.length →
      (place_order db m mob aid cart failAt).2.1 = db) := by
  rcases place_order_shape db m mob aid cart failAt with hdb |
    ⟨uid, a, items, haid, hcart, hne, hex, heq, hfail⟩
  · exact ⟨by rw [hdb]; exact h, fun _ _ _ _ _ => hdb⟩
  · constructor
    · rw [heq]
      exact place_order_commit_hasItems m uid a h hne
    · intro k items' hk hc hlen
      rw [hcart] at hc
      injection hc with e
      exact absurd (e ▸ hlen) (hfail k hk)

/-- Witness for C1 at a concrete database and a concrete partial-failure
injection. -/
theorem C1_witness :
    OrdersHaveItems ⟨[⟨1, "1111111111", "pw"⟩], [⟨10, 1, "A street"⟩], [], []⟩ ∧
    OrdersHaveItems (place_order ⟨[⟨1, "1111111111", "pw"⟩], [⟨10, 1, "A street"⟩], [], []⟩ []
      (some "1111111111") (some 10) (some [⟨"Rice", 50, 2, "kg"⟩]) (some 0)).2.1 :=
  ⟨fun o ho => absurd ho (List.not_mem_nil o),
   (C1_place_order_atomicity ⟨[⟨1, "1111111111", "pw"⟩], [⟨10, 1, "A street"⟩], [], []⟩ []
      (some "1111111111") (some 10) (some [⟨"Rice", 50, 2, "kg"⟩]) (some 0)
      (fun o ho => absurd ho (List.not_mem_nil o))).1⟩

/-- Claim C3 is refuted as stated: `place_order` performs no ownership check
on `address_id`.  User 1 places an order against address 10, which belongs
to user 2; the call succeeds with 201 and the persisted order references
another user's address. -/
theorem C3_same_user_counterexample :
    (place_order ⟨[⟨1, "1111111111", "pw"⟩, ⟨2, "2222222222", "pw"⟩],
        [⟨10, 2, "B street"⟩], [], []⟩ []
      (some "1111111111") (some 10) (some [⟨"Rice", 50, 2, "kg"⟩]) Option.none).1 = 201 ∧
    ¬ OrdersAddressSameUser (place_order ⟨[⟨1, "1111111111", "pw"⟩, ⟨2, "2222222222", "pw"⟩],
        [⟨10, 2, "B street"⟩], [], []⟩ []
      (some "1111111111") (some 10) (some [⟨"Rice", 50, 2, "kg"⟩]) Option.none).2.1 := by
  have key : place_order ⟨[⟨1, "1111111111", "pw"⟩, ⟨2, "2222222222", "pw"⟩],
        [⟨10, 2, "B street"⟩], [], []⟩ []
      (some "1111111111") (some 10) (some [⟨"Rice", 50, 2, "kg"⟩]) Option.none =
      (201,
       ⟨[⟨1, "1111111111", "pw"⟩, ⟨2, "2222222222", "pw"⟩], [⟨10, 2, "B street"⟩],
        [⟨1, 1, 10, pgNumeric2 (order_total [⟨"Rice", 50, 2, "kg"⟩]), "PLACED"⟩],
        [⟨1, "Rice", pgNumeric2 50, 2, "kg"⟩]⟩,
       [("orders_placed", 1),
        ("orders_total_value", order_total [⟨"Rice", 50, 2, "kg"⟩])]) := rfl
  constructor
  · rw [key]
  · rw [key]
    intro hcon
    obtain ⟨a, haMem, _, haUser⟩ :=
      hcon ⟨1, 1, 10, pgNumeric2 (order_total [⟨"Rice", 50, 2, "kg"⟩]), "PLACED"⟩ (by simp)
    simp only [List.mem_singleton] at haMem
    rw [haMem] at haUser
    exact absurd haUser (by norm_num)

/-- Claim C3 amended (corrected): the schema's foreign key guarantees the
referenced address exists, so `place_order` preserves the address-existence
invariant — but ownership by the same user is not checked. -/
theorem C3_address_exists (db : DB) (m : Metrics) (mob : Option String)
    (aid : Option ℕ) (cart : Option (List CartItem)) (failAt : Option ℕ)
    (h : OrdersAddressExists db) :
    OrdersAddressExists (place_order db m mob aid cart failAt).2.1 := by
  rcases place_order_shape db m mob aid cart failAt with hdb |
    ⟨uid, a, items, haid, hcart, hne, hex, heq, hfail⟩
  · rw [hdb]
    exact h
  · rw [heq]
    exact place_order_commit_addrExists m uid a h hex

/-- Witness for the amended C3 at a concrete database. -/
theorem C3_witness :
    OrdersAddressExists ⟨[⟨1, "1111111111", "pw"⟩], [⟨10, 1, "A street"⟩], [], []⟩ ∧
    OrdersAddressExists (place_order ⟨[⟨1, "1111111111", "pw"⟩], [⟨10, 1, "A street"⟩], [], []⟩ []
      (some "1111111111") (some 10) (some [⟨"Rice", 50, 2, "kg"⟩]) Option.none).2.1 :=
  ⟨fun o ho => absurd ho (List.not_mem_nil o),
   C3_address_exists ⟨[⟨1, "1111111111", "pw"⟩], [⟨10, 1, "A street"⟩], [], []⟩ []
      (some "1111111111") (some 10) (some [⟨"Rice", 50, 2, "kg"⟩]) Option.none
      (fun o ho => absurd ho (List.not_mem_nil o))⟩

/-- Claim C4 is refuted in one clause: a `PUT /api/admin/order/status` request
with an unmatched `order_id` does answer 404 with no row mutated, but the
`after_request` middleware then increments the `errors_4xx` counter, so "no
metric counter changed" is false. -/
theorem C4_notfound_metric_counterexample :
    (update_order_status_request ⟨[], [], [], []⟩ [] (some 5) (some "SHIPPED")).1 = 404 ∧
    (update_order_status_request ⟨[], [], [], []⟩ [] (some 5) (some "SHIPPED")).2.1 =
      ⟨[], [], [], []⟩ ∧
    (update_order_status_request ⟨[], [], [], []⟩ [] (some 5) (some "SHIPPED")).2.2 ≠ [] := by
  have e : (update_order_status_request ⟨[], [], [], []⟩ [] (some 5) (some "SHIPPED")).2.2 =
      [("errors_4xx", 1)] := rfl
  exact ⟨rfl, rfl, by rw [e]; exact List.cons_ne_nil _ _⟩

/-- Claim C4 amended (corrected): missing/falsy fields → 400; an unmatched
order id → 404 with no row mutated and no counter changed other than the
middleware's `errors_4xx`; otherwise the status string of the matched row is
overwritten unconditionally with any value, from any prior status, the call
succeeds with 200, and the metrics are untouched. -/
theorem C4_update_status_amended (db : DB) (m : Metrics) (oid : Option ℕ)
    (st : Option String) :
    ((oid = Option.none ∨ oid = some 0 ∨ st = Option.none ∨ st = some "") →
      (update_order_status_request db m oid st).1 = 400 ∧
      (update_order_status_request db m oid st).2.1 = db) ∧
    (∀ i s, oid = some i → st = some s → ¬ (i = 0 ∨ s = "") →
      db.orders.countP (fun o => o.id == i) = 0 →
      (update_order_status_request db m oid st).1 = 404 ∧
      (update_order_status_request db m oid st).2.1 = db ∧
      (update_order_status_request db m oid st).2.2 = track_metric m "errors_4xx" 1) ∧
    (∀ i s, oid = some i → st = some s → ¬ (i = 0 ∨ s = "") →
      ¬ db.orders.countP (fun o => o.id == i) = 0 →
      (update_order_status_request db m oid st).1 = 200 ∧
      (update_order_status_request db m oid st).2.1.orders =
        db.orders.map (fun o => if o.id == i then { o with status := s } else o) ∧
      (update_order_status_request db m oid st).2.2 = m) := by
  refine ⟨?_, ?_, ?_⟩
  · intro hfalsy
    rcases hfalsy with h | h | h | h
    · subst h; rcases st with _ | s <;> exact ⟨rfl, rfl⟩
    · subst h
      rcases st with _ | s
      · exact ⟨rfl, rfl⟩
      · have e : update_order_status db (some 0) (some s) = (400, db) := by
          simp only [update_order_status]
          rw [if_pos (Or.inl trivial)]
        constructor <;> simp [update_order_status_request, e]
    · subst h; rcases oid with _ | i <;> exact ⟨rfl, rfl⟩
    · subst h
      rcases oid with _ | i
      · exact ⟨rfl, rfl⟩
      · have e : update_order_status db (some i) (some "") = (400, db) := by
          simp only [update_order_status]
          rw [if_pos (Or.inr trivial)]
        constructor <;> simp [update_order_status_request, e]
  · intro i s hi hs hok hcount
    subst hi; subst hs
    have e : update_order_status db (some i) (some s) = (404, db) := by
      simp only [update_order_status]
      rw [if_neg hok, if_pos hcount]
    refine ⟨?_, ?_, ?_⟩ <;> simp [update_order_status_request, e, after_request]
  · intro i s hi hs hok hcount
    subst hi; subst hs
    have e : update_order_status db (some i) (some s) =
        (200, { db with orders :=
          (db.orders.map (fun o => if o.id == i then { o with status := s } else o)) }) := by
      simp only [update_order_status]
      rw [if_neg hok, if_neg hcount]
    refine ⟨?_, ?_, ?_⟩ <;> simp [update_order_status_request, e, after_request]

/-- Witness for the amended C4: a 404 on an empty order table, mutating no
row and bumping only `errors_4xx`. -/
theorem C4_witness :
    (update_order_status_request ⟨[], [], [], []⟩ [] (some 7) (some "PACKED")).1 = 404 ∧
    (update_order_status_request ⟨[], [], [], []⟩ [] (some 7) (some "PACKED")).2.1 =
      ⟨[], [], [], []⟩ ∧
    (update_order_status_request ⟨[], [], [], []⟩ [] (some 7) (some "PACKED")).2.2 =
      track_metric [] "errors_4xx" 1 :=
  (C4_update_status_amended ⟨[], [], [], []⟩ [] (some 7) (some "PACKED")).2.1
    7 "PACKED" rfl rfl (by simp) rfl

/-- Claim C5 (confirmed): The admin gate resolves the candidate phone with the
exact precedence body field, then path parameter, then header, and rejects
with 403 whenever the resolved candidate is not the configured admin
phone. -/
theorem C5_admin_gate (a : String) (b p h : Option String) (c : ℕ) :
    (opt_truthy b = true → resolve_candidate b p h = b) ∧
    (opt_truthy b = false → opt_truthy p = true → resolve_candidate b p h = p) ∧
    (opt_truthy b = false → opt_truthy p = false → resolve_candidate b p h = h) ∧
    (resolve_candidate b p h ≠ some a → admin_required a b p h c = 403) := by
  refine ⟨?_, ?_, ?_, ?_⟩
  · intro hb; simp [resolve_candidate, hb]
  · intro hb hp; simp [resolve_candidate, hb, hp]
  · intro hb hp; simp [resolve_candidate, hb, hp]
  · intro hne; simp [admin_required, hne]

/-- Witness for C5: three different phone numbers in body, path and header;
the body field wins, and a non-admin resolved candidate is rejected. -/
theorem C5_witness :
    opt_truthy (some "1111111111") = true ∧
    resolve_candidate (some "1111111111") (some "2222222222") (some "3333333333") =
      some "1111111111" ∧
    admin_required "9999999999" (some "1111111111") (some "2222222222")
      (some "3333333333") 200 = 403 :=
  ⟨rfl,
   (C5_admin_gate "9999999999" (some "1111111111") (some "2222222222")
      (some "3333333333") 200).1 rfl,
   (C5_admin_gate "9999999999" (some "1111111111") (some "2222222222")
      (some "3333333333") 200).2.2.2 (by decide)⟩

/-- Claim C6 (confirmed): The phone validator accepts exactly the strings of
ten digit characters, and rejects `None` and non-string input. -/
theorem C6_validate_mobile_spec :
    (∀ s, validate_mobile (.str s) = true ↔
      s.length = 10 ∧ s.data.all Char.isDigit = true) ∧
    validate_mobile PyValue.none = false ∧
    (∀ n, validate_mobile (.int n) = false) := by
  refine ⟨?_, rfl, fun n => rfl⟩
  intro s
  constructor
  · intro h
    simp only [validate_mobile, str_isdigit, Bool.and_eq_true, beq_iff_eq,
      Bool.not_eq_true', beq_eq_false_iff_ne, ne_eq] at h
    exact ⟨h.1.2, h.2.2⟩
  · rintro ⟨hlen, hall⟩
    have hne : ¬ s = "" := by
      intro he
      rw [he] at hlen
      exact absurd hlen (by decide)
    simp only [validate_mobile, str_isdigit, Bool.and_eq_true, beq_iff_eq,
      Bool.not_eq_true', beq_eq_false_iff_ne, ne_eq]
    exact ⟨⟨hne, hlen⟩, hne, hall⟩

/-- Claim C7 is refuted as stated: with 1 successful and 2 failed logins the
code publishes `round((1/3)*100, 2) = 33.33`, not the exact ratio
`100/3`. -/
theorem C7_rate_counterexample :
    login_success_rate [("login_successful", 1), ("login_failed", 2)] ≠
      mget [("login_successful", 1), ("login_failed", 2)] "login_successful" /
        (mget [("login_successful", 1), ("login_failed", 2)] "login_successful" +
         mget [("login_successful", 1), ("login_failed", 2)] "login_failed") * 100 := by
  have e1 : mget [("login_successful", (1:ℚ)), ("login_failed", 2)] "login_successful" = 1 := rfl
  have e2 : mget [("login_successful", (1:ℚ)), ("login_failed", 2)] "login_failed" = 2 := rfl
  have e3 : login_success_rate [("login_successful", 1), ("login_failed", 2)] = 3333/100 := by
    simp only [login_success_rate, e1, e2]
    rw [if_pos (by norm_num)]
    unfold pyRound2
    rw [rintHalfEven_of_lt (n := 3333) (by norm_num) (by norm_num)]
    norm_num
  rw [e3, e1, e2]
  norm_num

/-- Claim C7 amended (corrected): each derived rate is the guarded ratio × 100
rounded to two decimal places — hence within 0.005 of the exact value — and
0 whenever its denominator is not positive (the division is never evaluated
then). -/
theorem C7_rates_amended (m : Metrics) :
    (¬ 0 < mget m "login_successful" + mget m "login_failed" →
      login_success_rate m = 0) ∧
    (0 < mget m "login_successful" + mget m "login_failed" →
      |login_success_rate m -
        mget m "login_successful" /
          (mget m "login_successful" + mget m "login_failed") * 100| ≤ 1/200) ∧
    (¬ 0 < mget m "products_viewed" → conversion_rate m = 0) ∧
    (0 < mget m "products_viewed" →
      |conversion_rate m - mget m "orders_placed" / mget m "products_viewed" * 100|
        ≤ 1/200) := by
  refine ⟨?_, ?_, ?_, ?_⟩
  · intro h; simp only [login_success_rate]; rw [if_neg h]
  · intro h; simp only [login_success_rate]; rw [if_pos h]; exact abs_pyRound2_sub_le _
  · intro h; simp only [conversion_rate]; rw [if_neg h]
  · intro h; simp only [conversion_rate]; rw [if_pos h]; exact abs_pyRound2_sub_le _

/-- Witness for the amended C7 at the counterexample's counters. -/
theorem C7_witness :
    0 < mget [("login_successful", 1), ("login_failed", 2)] "login_successful" +
        mget [("login_successful", 1), ("login_failed", 2)] "login_failed" ∧
    |login_success_rate [("login_successful", 1), ("login_failed", 2)] -
      mget [("login_successful", 1), ("login_failed", 2)] "login_successful" /
        (mget [("login_successful", 1), ("login_failed", 2)] "login_successful" +
         mget [("login_successful", 1), ("login_failed", 2)] "login_failed") * 100|
      ≤ 1/200 :=
  ⟨by
    have e1 : mget [("login_successful", (1:ℚ)), ("login_failed", 2)] "login_successful" = 1 := rfl
    have e2 : mget [("login_successful", (1:ℚ)), ("login_failed", 2)] "login_failed" = 2 := rfl
    rw [e1, e2]; norm_num,
   (C7_rates_amended _).2.1 (by
    have e1 : mget [("login_successful", (1:ℚ)), ("login_failed", 2)] "login_successful" = 1 := rfl
    have e2 : mget [("login_successful", (1:ℚ)), ("login_failed", 2)] "login_failed" = 2 := rfl
    rw [e1, e2]; norm_num)⟩

/-- Claim C8 (confirmed): On valid input, `auth` tracks `login_successful`
exactly on a password match, `login_failed` exactly on a mismatch, and
neither counter on the auto-registration path. -/
theorem C8_auth_metrics (db : DB) (m : Metrics) (mob pw : String)
    (h1 : validate_mobile (.str mob) = true) (h2 : 6 ≤ pw.length) :
    (findUser db mob = Option.none →
      (auth db m (some mob) (some pw)).1 = 201 ∧
      (auth db m (some mob) (some pw)).2.2 = m) ∧
    (∀ u, findUser db mob = some u → check_password_hash u.password pw = true →
      (auth db m (some mob) (some pw)).1 = 200 ∧
      (auth db m (some mob) (some pw)).2.2 = track_metric m "login_successful" 1) ∧
    (∀ u, findUser db mob = some u → check_password_hash u.password pw = false →
      (auth db m (some mob) (some pw)).1 = 401 ∧
      (auth db m (some mob) (some pw)).2.2 = track_metric m "login_failed" 1) := by
  have hmob : ¬ mob = "" := by
    intro he; rw [he] at h1; exact absurd h1 (by decide)
  have hpw : ¬ pw = "" := by
    intro he; rw [he] at h2; exact absurd h2 (by decide)
  have hor : ¬ (mob = "" ∨ pw = "") := by tauto
  have hval : ¬ (validate_mobile (.str mob) = false) := by simp [h1]
  have hlen : ¬ pw.length < 6 := by omega
  refine ⟨?_, ?_, ?_⟩
  · intro hf
    have e : auth db m (some mob) (some pw) =
        (201, { db with users := db.users ++ [⟨nextUserId db, mob, generate_password_hash pw⟩] },
         m) := by
      simp only [auth, hf]
      rw [if_neg hor, if_neg hval, if_neg hlen]
    rw [e]
    exact ⟨rfl, rfl⟩
  · intro u hf hc
    have e : auth db m (some mob) (some pw) =
        (200, db, track_metric m "login_successful" 1) := by
      simp only [auth, hf]
      rw [if_neg hor, if_neg hval, if_neg hlen, if_pos hc]
    rw [e]
    exact ⟨rfl, rfl⟩
  · intro u hf hc
    have e : auth db m (some mob) (some pw) =
        (401, db, track_metric m "login_failed" 1) := by
      simp only [auth, hf]
      rw [if_neg hor, if_neg hval, if_neg hlen, if_neg (by simp [hc])]
    rw [e]
    exact ⟨rfl, rfl⟩

/-- Witness for C8: a stored user logging in with the matching password gets
200 and exactly the `login_successful` counter tracked. -/
theorem C8_witness :
    validate_mobile (.str "1234567890") = true ∧ 6 ≤ "secret".length ∧
    (auth ⟨[⟨1, "1234567890", "secret"⟩], [], [], []⟩ []
      (some "1234567890") (some "secret")).1 = 200 ∧
    (auth ⟨[⟨1, "1234567890", "secret"⟩], [], [], []⟩ []
      (some "1234567890") (some "secret")).2.2 = track_metric [] "login_successful" 1 :=
  ⟨by decide, by decide,
   ((C8_auth_metrics ⟨[⟨1, "1234567890", "secret"⟩], [], [], []⟩ [] "1234567890" "secret"
      (by decide) (by decide)).2.1 ⟨1, "1234567890", "secret"⟩ rfl rfl).1,
   ((C8_auth_metrics ⟨[⟨1, "1234567890", "secret"⟩], [], [], []⟩ [] "1234567890" "secret"
      (by decide) (by decide)).2.1 ⟨1, "1234567890", "secret"⟩ rfl rfl).2⟩

/-- Claim C9 (confirmed): `track_metric` adds the delta to the named counter
(an absent counter reads as zero) and leaves every other counter
unchanged. -/
theorem C9_track_metric_frame (m : Metrics) (name : String) (v : ℚ) :
    mget (track_metric m name v) name = mget m name + v ∧
    ∀ n, ¬ n = name → mget (track_metric m name v) n = mget m n :=
  ⟨mget_track_self m name v, fun n h => mget_track_other m name n v h⟩

/-- Witness for C9 on an empty map: the tracked counter is created at
0 + 100 and an unrelated counter still reads 0. -/
theorem C9_witness :
    ¬ "orders_placed" = "orders_total_value" ∧
    mget (track_metric [] "orders_total_value" 100) "orders_total_value" =
      mget [] "orders_total_value" + 100 ∧
    mget (track_metric [] "orders_total_value" 100) "orders_placed" =
      mget [] "orders_placed" :=
  ⟨by decide,
   (C9_track_metric_frame [] "orders_total_value" 100).1,
   (C9_track_metric_frame [] "orders_total_value" 100).2 "orders_placed" (by decide)⟩

/-- Claim C10 (confirmed, implicit): `my_orders` performs no phone validation:
it answers 200 for every input string, with an empty list when no user
matches — while `get_addresses` rejects an invalid phone with 400 before its
user lookup. -/
theorem C10_my_orders_no_validation (db : DB) (mobile : String) :
    (my_orders db mobile).1 = 200 ∧
    (findUser db mobile = Option.none → (my_orders db mobile).2 = []) ∧
    (validate_mobile (.str mobile) = false → (get_addresses db mobile).1 = 400) := by
  refine ⟨?_, ?_, ?_⟩
  · cases h : findUser db mobile <;> simp only [my_orders] <;> rw [h]
  · intro h
    have e : my_orders db mobile = (200, []) := by
      simp only [my_orders]
      rw [h]
    rw [e]
  · intro h
    simp only [get_addresses]
    rw [if_pos h]

/-- Witness for C10: the 9-character non-numeric string "abcdefghi" is not
validated by `my_orders` (200, empty list) but is rejected by
`get_addresses` (400). -/
theorem C10_witness :
    findUser ⟨[], [], [], []⟩ "abcdefghi" = Option.none ∧
    validate_mobile (.str "abcdefghi") = false ∧
    (my_orders ⟨[], [], [], []⟩ "abcdefghi").1 = 200 ∧
    (my_orders ⟨[], [], [], []⟩ "abcdefghi").2 = [] ∧
    (get_addresses ⟨[], [], [], []⟩ "abcdefghi").1 = 400 :=
  ⟨rfl, by decide,
   (C10_my_orders_no_validation ⟨[], [], [], []⟩ "abcdefghi").1,
   (C10_my_orders_no_validation ⟨[], [], [], []⟩ "abcdefghi").2.1 rfl,
   (C10_my_orders_no_validation ⟨[], [], [], []⟩ "abcdefghi").2.2 (by decide)⟩

end Kiyanshi
